import Mathlib

/-!
Verification of the `slinger` connection establisher (`src/connector.rs`)
via a shallow embedding in Lean 4.

The embedding models:
  * `ConnectorBuilder` with its fluent setters and `build`,
  * `Connector` with `connect_with_addr`, `connect_with_uri`,
    `upgrade_to_tls`, `PartialEq` and `Default`,
  * the OS socket facility, the TLS engine and the proxy tunneling
    collaborator as explicit environments (external effects become
    parameters; the sequence of performed socket operations is logged).

Machine-level details (durations) are modelled as natural numbers of
milliseconds; external opaque values (`Proxy`, URIs) as small records.
-/

namespace Slinger

/-- Durations (`std::time::Duration`) are modelled as milliseconds. -/
abbrev Duration := Nat

/-- `crate::proxy::Proxy` is opaque to the connector; modelled as a tagged value. -/
structure Proxy where
  id : Nat
deriving DecidableEq, Repr

/-- `http::Uri` is opaque to the connector; modelled as a tagged value. -/
structure Uri where
  id : Nat
deriving DecidableEq, Repr

/-- `std::io::ErrorKind`, restricted to the kinds the connector mentions. -/
inductive IOErrorKind where
  | ConnectionAborted
  | TimedOut
  | Other
deriving DecidableEq, Repr

/-- An I/O error value: kind plus message (`errors::new_io_error` shape). -/
structure IOErr where
  kind : IOErrorKind
  msg : String
deriving DecidableEq, Repr

/-- `errors::new_io_error(kind, msg)`. -/
def new_io_error (k : IOErrorKind) (m : String) : IOErr := ⟨k, m⟩

/-- `socket2::Domain` (address family). -/
inductive Domain where
  | IPV4
  | IPV6
deriving DecidableEq, Repr

/-- `socket2::Type`, restricted to the one used. -/
inductive SockType where
  | STREAM
deriving DecidableEq, Repr

/-- `socket2::Protocol`, restricted to the one used. -/
inductive Protocol where
  | TCP
deriving DecidableEq, Repr

/-- `std::net::SocketAddr`: a v4 or v6 address with a port. -/
inductive SocketAddr where
  | v4 (ip : Nat) (port : Nat)
  | v6 (ip : Nat) (port : Nat)
deriving DecidableEq, Repr

/-- `socket2::Domain::for_address`: the domain matching the address family. -/
def Domain.for_address : SocketAddr → Domain
  | SocketAddr.v4 _ _ => Domain.IPV4
  | SocketAddr.v6 _ _ => Domain.IPV6

/-- A raw OS socket (`socket2::Socket`) modelled by its observable option
state.  A fresh socket has the OS defaults: no-delay off, no timeouts,
not connected. -/
structure RawSocket where
  domain : Domain
  ty : SockType
  protocol : Option Protocol
  nodelay : Bool := false
  readTimeout : Option Duration := none
  writeTimeout : Option Duration := none
  connectedTo : Option SocketAddr := none
deriving DecidableEq, Repr

/-- A TLS-wrapped stream (`native_tls::TlsStream`), opaque beyond identity. -/
structure TlsStream where
  id : Nat
deriving DecidableEq, Repr

/-- `crate::socket::Socket`: the closed sum over plain TCP and TLS streams,
with the variant names used by `connector.rs` (`Socket::TCP`, `Socket::TLS`). -/
inductive Socket where
  | TCP (s : RawSocket)
  | TLS (t : TlsStream)
deriving DecidableEq, Repr

/-- The compiled TLS context: `native_tls::TlsConnector` as configured by
`TlsConnector::builder().danger_accept_invalid_hostnames(_).danger_accept_invalid_certs(_)`. -/
structure TlsConnectorCfg where
  danger_accept_invalid_hostnames : Bool
  danger_accept_invalid_certs : Bool
deriving DecidableEq, Repr

/-- Environment for the TLS context builder: `none` means
`TlsConnectorBuilder::build` succeeds, `some e` means it fails with `e`
(e.g. an invalid platform trust store). -/
structure TlsEnv where
  buildFails : Option IOErr
deriving DecidableEq, Repr

/-- `ConnectorBuilder` (fields and defaults as in `connector.rs`). -/
structure ConnectorBuilder where
  hostname_verification : Bool := false
  certs_verification : Bool := false
  read_timeout : Option Duration := none
  write_timeout : Option Duration := none
  connect_timeout : Option Duration := none
  nodelay : Bool := false
  proxy : Option Proxy := none
deriving DecidableEq, Repr

/-- `ConnectorBuilder::default()` (the derived `Default`). -/
def ConnectorBuilder.defaultB : ConnectorBuilder := {}

/-- `ConnectorBuilder::hostname_verification`. -/
def ConnectorBuilder.set_hostname_verification (b : ConnectorBuilder) (value : Bool) :
    ConnectorBuilder :=
  { b with hostname_verification := value }

/-- `ConnectorBuilder::certs_verification`. -/
def ConnectorBuilder.set_certs_verification (b : ConnectorBuilder) (value : Bool) :
    ConnectorBuilder :=
  { b with certs_verification := value }

/-- `ConnectorBuilder::nodelay`. -/
def ConnectorBuilder.set_nodelay (b : ConnectorBuilder) (value : Bool) : ConnectorBuilder :=
  { b with nodelay := value }

/-- `ConnectorBuilder::read_timeout`. -/
def ConnectorBuilder.set_read_timeout (b : ConnectorBuilder) (timeout : Option Duration) :
    ConnectorBuilder :=
  { b with read_timeout := timeout }

/-- `ConnectorBuilder::write_timeout`. -/
def ConnectorBuilder.set_write_timeout (b : ConnectorBuilder) (timeout : Option Duration) :
    ConnectorBuilder :=
  { b with write_timeout := timeout }

/-- `ConnectorBuilder::connect_timeout`. -/
def ConnectorBuilder.set_connect_timeout (b : ConnectorBuilder) (timeout : Option Duration) :
    ConnectorBuilder :=
  { b with connect_timeout := timeout }

/-- `ConnectorBuilder::proxy`. -/
def ConnectorBuilder.set_proxy (b : ConnectorBuilder) (addr : Option Proxy) : ConnectorBuilder :=
  { b with proxy := addr }

/-- `Connector` (fields as in `connector.rs`, with the compiled TLS context). -/
structure Connector where
  connect_timeout : Option Duration
  nodelay : Bool
  read_timeout : Option Duration
  write_timeout : Option Duration
  proxy : Option Proxy
  tls : TlsConnectorCfg
deriving DecidableEq, Repr

/-- `ConnectorBuilder::build`: compile the TLS context with the danger
flags set to the negation of the verification flags, then copy the
remaining fields into a `Connector`.  Reads the builder by shared
reference (pure function of `b`); the TLS-library build step may fail
according to the environment. -/
def ConnectorBuilder.build (b : ConnectorBuilder) (env : TlsEnv) : Except IOErr Connector :=
  match env.buildFails with
  | some e => Except.error e
  | none =>
    Except.ok
      { connect_timeout := b.connect_timeout
        nodelay := b.nodelay
        read_timeout := b.read_timeout
        write_timeout := b.write_timeout
        proxy := b.proxy
        tls :=
          { danger_accept_invalid_hostnames := !b.hostname_verification
            danger_accept_invalid_certs := !b.certs_verification } }

/-- `impl PartialEq for Connector`: `fn eq(&self, _other: &Self) -> bool { true }`. -/
def Connector.eq (_self _other : Connector) : Bool := true

/-- Outcome of an infallible-from-the-caller construction: either a value
or a process abort (Rust `expect` panic) with its message. -/
inductive BuildOrAbort where
  | ok (c : Connector)
  | abort (msg : String)
deriving DecidableEq, Repr

/-- `impl Default for Connector`:
`ConnectorBuilder::default().build().expect("new default connector failure")`. -/
def Connector.defaultConn (env : TlsEnv) : BuildOrAbort :=
  match ConnectorBuilder.defaultB.build env with
  | Except.ok c => BuildOrAbort.ok c
  | Except.error _ => BuildOrAbort.abort "new default connector failure"

/-- One OS socket operation performed by `connect_with_addr`, logged in
order so that the exact call sequence can be stated. -/
inductive Op where
  | newSock (d : Domain) (t : SockType) (p : Option Protocol)
  | setNodelay (v : Bool)
  | setReadTimeout (t : Option Duration)
  | setWriteTimeout (t : Option Duration)
  | connect (a : SocketAddr)
  | connectTimeout (a : SocketAddr) (t : Duration)
deriving DecidableEq, Repr

/-- Environment for the OS socket facility: each field tells whether the
corresponding syscall fails (`some e`) or succeeds (`none`) when invoked. -/
structure OsEnv where
  newFails : Option IOErr := none
  nodelayFails : Option IOErr := none
  readTimeoutFails : Option IOErr := none
  writeTimeoutFails : Option IOErr := none
  connectFails : Option IOErr := none
deriving DecidableEq, Repr

/-- The tail of `Connector::connect_with_addr` after the optional
no-delay step: set the read timeout, set the write timeout, then connect
(bounded when a connect timeout is configured, blocking otherwise), and
wrap the connected stream as `Socket::TCP`. -/
def connectAddrAfterNodelay (c : Connector) (env : OsEnv) (addr : SocketAddr)
    (s : RawSocket) (ops : List Op) : Except IOErr Socket × List Op :=
  let ops := ops ++ [Op.setReadTimeout c.read_timeout]
  match env.readTimeoutFails with
  | some e => (Except.error e, ops)
  | none =>
    let s := { s with readTimeout := c.read_timeout }
    let ops := ops ++ [Op.setWriteTimeout c.write_timeout]
    match env.writeTimeoutFails with
    | some e => (Except.error e, ops)
    | none =>
      let s := { s with writeTimeout := c.write_timeout }
      match c.connect_timeout with
      | none =>
        let ops := ops ++ [Op.connect addr]
        match env.connectFails with
        | some e => (Except.error e, ops)
        | none => (Except.ok (Socket.TCP { s with connectedTo := some addr }), ops)
      | some timeout =>
        let ops := ops ++ [Op.connectTimeout addr timeout]
        match env.connectFails with
        | some e => (Except.error e, ops)
        | none => (Except.ok (Socket.TCP { s with connectedTo := some addr }), ops)

/-- `Connector::connect_with_addr`: allocate a stream/TCP socket for the
address family, set no-delay only when `nodelay` is true, set both
timeouts unconditionally, then connect.  Every syscall's failure is
surfaced immediately; the performed syscalls are returned in order. -/
def Connector.connect_with_addr (c : Connector) (env : OsEnv) (addr : SocketAddr) :
    Except IOErr Socket × List Op :=
  let ops := [Op.newSock (Domain.for_address addr) SockType.STREAM (some Protocol.TCP)]
  match env.newFails with
  | some e => (Except.error e, ops)
  | none =>
    let s : RawSocket :=
      { domain := Domain.for_address addr, ty := SockType.STREAM, protocol := some Protocol.TCP }
    if c.nodelay then
      let ops := ops ++ [Op.setNodelay c.nodelay]
      match env.nodelayFails with
      | some e => (Except.error e, ops)
      | none => connectAddrAfterNodelay c env addr { s with nodelay := c.nodelay } ops
    else
      connectAddrAfterNodelay c env addr s ops

/-- `crate::proxy::ProxySocket` as used by `connect_with_uri`: it is built
from the target URI and the connector's proxy descriptor.
Modelled from the spec: `ProxySocket` lives outside `src/`; the spec
describes it as the proxy-tunneling collaborator that, given a target URI
and proxy descriptor (carried unchanged), negotiates the proxy protocol
using the supplied connector and returns the socket it produces. -/
structure ProxySocket where
  target : Uri
  proxy : Option Proxy
deriving DecidableEq, Repr

/-- `ProxySocket::new(target, proxy)`. -/
def ProxySocket.new (target : Uri) (proxy : Option Proxy) : ProxySocket :=
  { target := target, proxy := proxy }

/-- The behaviour of the proxy-tunneling collaborator, as an environment:
given the target URI, the proxy descriptor and the underlying connector,
it produces a socket or an error. -/
def Collaborator : Type :=
  Uri → Option Proxy → Connector → Except IOErr Socket

/-- `ProxySocket::conn_with_connector(self, connector)`.
Modelled from the spec: the collaborator negotiates the proxy protocol
with the stored target and proxy, reusing the supplied connector. -/
def ProxySocket.conn_with_connector (ps : ProxySocket) (collab : Collaborator)
    (c : Connector) : Except IOErr Socket :=
  collab ps.target ps.proxy c

/-- `Connector::connect_with_uri`:
`ProxySocket::new(target, &self.proxy).conn_with_connector(self)`. -/
def Connector.connect_with_uri (c : Connector) (collab : Collaborator) (target : Uri) :
    Except IOErr Socket :=
  (ProxySocket.new target c.proxy).conn_with_connector collab c

/-- Result of one TLS handshake step (`native_tls`): success with the
secured stream, a resumable would-block carrying the partial handshake
state `σ`, or a terminal failure. -/
inductive HsRes (σ : Type) where
  | ok (t : TlsStream)
  | wouldBlock (mid : σ)
  | failed (e : IOErr)
deriving DecidableEq

/-- The external TLS engine: `TlsConnector::connect` starts the
handshake; `MidHandshake::handshake` resumes it from retained partial
state.  `σ` is the type of partial handshake states. -/
structure TlsEngineModel (σ : Type) where
  start : String → RawSocket → HsRes σ
  resume : σ → HsRes σ

/-- The `while let Err(HandshakeError::WouldBlock(mid))` loop of
`upgrade_to_tls`: on would-block, resume from the retained partial state
and step again; any other outcome ends the loop.  The Rust loop is
uncapped; `fuel` only bounds this model's evaluation (`none` means the
loop is still running after `fuel` resumptions).  `steps` counts the
handshake invocations made so far. -/
def hsLoop (eng : TlsEngineModel σ) (fuel : Nat) (r : HsRes σ) (steps : Nat) :
    Option (Except IOErr TlsStream × Nat) :=
  match r with
  | HsRes.ok t => some (Except.ok t, steps)
  | HsRes.failed e => some (Except.error e, steps)
  | HsRes.wouldBlock mid =>
    match fuel with
    | 0 => none
    | fuel + 1 => hsLoop eng fuel (eng.resume mid) (steps + 1)

/-- `Connector::upgrade_to_tls`: on a plain socket, start the handshake
against the domain and run the would-block loop, wrapping success as
`Socket::TLS`; on an already-TLS socket, fail immediately with the
ConnectionAborted "it's already tls" error (zero handshake steps).
Returns the outcome paired with the number of handshake steps performed;
`none` means the uncapped loop is still running after `fuel` resumptions. -/
def Connector.upgrade_to_tls (_c : Connector) (eng : TlsEngineModel σ) (fuel : Nat)
    (stream : Socket) (domain : String) : Option (Except IOErr Socket × Nat) :=
  match stream with
  | Socket.TCP s =>
    match hsLoop eng fuel (eng.start domain s) 1 with
    | none => none
    | some (Except.ok t, n) => some (Except.ok (Socket.TLS t), n)
    | some (Except.error e, n) => some (Except.error e, n)
  | Socket.TLS _ =>
    some (Except.error (new_io_error IOErrorKind.ConnectionAborted "it's already tls"), 0)

/-- A TLS engine whose behaviour is given by `b : Nat → HsRes Nat`: the
initial step returns `b 0` and a would-block at step `k` retains the
state `k`, so resuming yields `b (k + 1)`.  This is the fake transport
stub of the spec. -/
def engineOfBehavior (b : Nat → HsRes Nat) : TlsEngineModel Nat :=
  { start := fun _ _ => b 0, resume := fun k => b (k + 1) }

/-! ## Test fixtures (concrete values used by witnesses) -/

/-- A connector with all-default (permissive) configuration. -/
def connA : Connector :=
  { connect_timeout := none, nodelay := false, read_timeout := none,
    write_timeout := none, proxy := none,
    tls := { danger_accept_invalid_hostnames := true, danger_accept_invalid_certs := true } }

/-- A connector with a different configuration: nodelay on, timeouts and
a proxy set, verification on. -/
def connB : Connector :=
  { connect_timeout := some 30, nodelay := true, read_timeout := some 10,
    write_timeout := some 20, proxy := some ⟨3⟩,
    tls := { danger_accept_invalid_hostnames := false, danger_accept_invalid_certs := false } }

/-- A fresh raw TCP socket fixture. -/
def sockA : RawSocket :=
  { domain := Domain.IPV4, ty := SockType.STREAM, protocol := some Protocol.TCP }

/-- A fully-populated builder obtained through the fluent setter chain. -/
def bldB : ConnectorBuilder :=
  ((((((ConnectorBuilder.defaultB.set_nodelay true).set_read_timeout
      (some 10)).set_write_timeout (some 20)).set_connect_timeout
      (some 30)).set_proxy (some ⟨3⟩)).set_hostname_verification
      true).set_certs_verification true

/-! ## Theorems -/

/-- C2: `upgrade_to_tls` on a socket that is already the Secure (TLS)
variant fails immediately with the ConnectionAborted "it's already tls"
error, performs zero handshake steps (hence no I/O), and is an error,
never a no-op success, whatever the engine, fuel or domain. -/
theorem upgrade_to_tls_already_secure {σ : Type} (c : Connector) (eng : TlsEngineModel σ)
    (fuel : Nat) (t : TlsStream) (domain : String) :
    c.upgrade_to_tls eng fuel (Socket.TLS t) domain =
      some (Except.error (new_io_error IOErrorKind.ConnectionAborted "it's already tls"), 0) :=
  rfl

/-- C4: `ConnectorBuilder::build` compiles the TLS context with
`danger_accept_invalid_hostnames = !hostname_verification` and
`danger_accept_invalid_certs = !certs_verification`. -/
theorem build_sets_danger_flags (b : ConnectorBuilder) (env : TlsEnv) (c : Connector)
    (h : b.build env = Except.ok c) :
    c.tls.danger_accept_invalid_hostnames = !b.hostname_verification ∧
      c.tls.danger_accept_invalid_certs = !b.certs_verification := by
  cases henv : env.buildFails with
  | some e => simp [ConnectorBuilder.build, henv] at h
  | none =>
    simp [ConnectorBuilder.build, henv] at h
    subst h
    exact ⟨rfl, rfl⟩

/-- C4 witness: a concrete builder with `hostname_verification = true`
and `certs_verification = false` yields a context that does not accept
invalid hostnames but does accept invalid certificates. -/
theorem build_sets_danger_flags_witness :
    ((ConnectorBuilder.defaultB.set_hostname_verification true).build ⟨none⟩ =
        Except.ok
          { connect_timeout := none, nodelay := false, read_timeout := none,
            write_timeout := none, proxy := none,
            tls := { danger_accept_invalid_hostnames := false,
                     danger_accept_invalid_certs := true } }) ∧
      (false = !true ∧ true = !false) := by
  refine ⟨rfl, ?_⟩
  have h :=
    build_sets_danger_flags (ConnectorBuilder.defaultB.set_hostname_verification true) ⟨none⟩
      { connect_timeout := none, nodelay := false, read_timeout := none,
        write_timeout := none, proxy := none,
        tls := { danger_accept_invalid_hostnames := false,
                 danger_accept_invalid_certs := true } }
      rfl
  exact h

/-- C6: every builder setter updates exactly its own field (stated as a
record update, which fixes all other fields) with no validation, and
setters are last-write-wins: `read_timeout(Some d)` then
`read_timeout(None)` on a fresh builder builds a Connector whose read
timeout is `none`, so connect logs `setReadTimeout none` (clearing any
timeout) and the connected socket carries no read timeout. -/
theorem builder_setters_one_field (b : ConnectorBuilder) (v : Bool) (t : Option Duration)
    (p : Option Proxy) (d : Duration) (env : TlsEnv) :
    b.set_hostname_verification v = { b with hostname_verification := v } ∧
    b.set_certs_verification v = { b with certs_verification := v } ∧
    b.set_nodelay v = { b with nodelay := v } ∧
    b.set_read_timeout t = { b with read_timeout := t } ∧
    b.set_write_timeout t = { b with write_timeout := t } ∧
    b.set_connect_timeout t = { b with connect_timeout := t } ∧
    b.set_proxy p = { b with proxy := p } ∧
    (∀ c : Connector,
      ((ConnectorBuilder.defaultB.set_read_timeout (some d)).set_read_timeout none).build env =
          Except.ok c →
        c.read_timeout = none ∧
          ∀ (osenv : OsEnv) (addr : SocketAddr),
            Op.setReadTimeout none ∈ (c.connect_with_addr osenv addr).2 ∨
              (c.connect_with_addr osenv addr).2 =
                [Op.newSock (Domain.for_address addr) SockType.STREAM (some Protocol.TCP)]) := by
  refine ⟨rfl, rfl, rfl, rfl, rfl, rfl, rfl, ?_⟩
  intro c hc
  cases henv : env.buildFails with
  | some e => simp [ConnectorBuilder.build, henv] at hc
  | none =>
    simp [ConnectorBuilder.build, henv, ConnectorBuilder.defaultB,
      ConnectorBuilder.set_read_timeout] at hc
    subst hc
    refine ⟨rfl, ?_⟩
    intro osenv addr
    simp only [Connector.connect_with_addr]
    cases hnew : osenv.newFails with
    | some e => right; rfl
    | none =>
      left
      simp only [hnew]
      cases hnd : osenv.nodelayFails <;>
        simp [connectAddrAfterNodelay, List.mem_append] <;>
        cases osenv.readTimeoutFails <;>
        cases osenv.writeTimeoutFails <;>
        cases osenv.connectFails <;>
        simp

/-- C6 witness: on a fresh builder, `read_timeout(some 5)` then
`read_timeout(none)` builds a connector with no read timeout. -/
theorem builder_setters_one_field_witness :
    ((ConnectorBuilder.defaultB.set_read_timeout (some 5)).set_read_timeout none).build ⟨none⟩ =
        Except.ok connA ∧
      connA.read_timeout = none := by
  refine ⟨rfl, ?_⟩
  exact
    ((builder_setters_one_field ConnectorBuilder.defaultB true none none 5
          ⟨none⟩).2.2.2.2.2.2.2 connA rfl).1

/-- C7: `connect_with_uri` delegates entirely to the proxy-tunneling
collaborator (`ProxySocket::new(target, proxy).conn_with_connector(self)`),
passing the connector itself and its proxy descriptor unchanged, and
returns exactly the socket the collaborator produces — in particular a
plain socket stays plain: no TLS upgrade happens inside the call. -/
theorem connect_with_uri_delegates (c : Connector) (collab : Collaborator) (target : Uri) :
    c.connect_with_uri collab target = collab target c.proxy c ∧
      (∀ s : RawSocket, collab target c.proxy c = Except.ok (Socket.TCP s) →
        c.connect_with_uri collab target = Except.ok (Socket.TCP s)) :=
  ⟨rfl, fun _ h => h⟩

/-- C7 witness: with a collaborator that returns a concrete plain socket,
`connect_with_uri` returns that same plain socket. -/
theorem connect_with_uri_delegates_witness :
    connA.connect_with_uri (fun _ _ _ => Except.ok (Socket.TCP sockA)) ⟨1⟩ =
      Except.ok (Socket.TCP sockA) :=
  (connect_with_uri_delegates connA (fun _ _ _ => Except.ok (Socket.TCP sockA)) ⟨1⟩).2 sockA rfl

/-- C8: equality on built `Connector`s ignores every field — it is `true`
for every pair, including pairs built from identical configurations and
pairs built from different configurations. -/
theorem connector_eq_trivial :
    (∀ c₁ c₂ : Connector, Connector.eq c₁ c₂ = true) ∧
      (∀ (b₁ b₂ : ConnectorBuilder) (env₁ env₂ : TlsEnv) (c₁ c₂ : Connector),
        b₁.build env₁ = Except.ok c₁ → b₂.build env₂ = Except.ok c₂ →
          Connector.eq c₁ c₂ = true) :=
  ⟨fun _ _ => rfl, fun _ _ _ _ _ _ _ _ => rfl⟩

/-- C8 witness: two connectors built from different configurations
(defaults vs nodelay/timeouts/proxy/verification all changed) compare
equal. -/
theorem connector_eq_trivial_witness :
    ConnectorBuilder.defaultB.build ⟨none⟩ = Except.ok connA ∧
      bldB.build ⟨none⟩ = Except.ok connB ∧
      Connector.eq connA connB = true := by
  refine ⟨rfl, rfl, ?_⟩
  exact connector_eq_trivial.2 ConnectorBuilder.defaultB bldB ⟨none⟩ ⟨none⟩ connA connB rfl rfl

/-- C9: the default builder has all-permissive fields, and
`Connector::default()` never yields an error: when the TLS context build
succeeds it returns the connector with permissive defaults (accept
invalid hostnames and certificates, nodelay off, no timeouts, no proxy);
when the build fails it aborts the process with the `expect` message. -/
theorem default_connector_permissive (env : TlsEnv) :
    ConnectorBuilder.defaultB.hostname_verification = false ∧
      ConnectorBuilder.defaultB.certs_verification = false ∧
      ConnectorBuilder.defaultB.nodelay = false ∧
      ConnectorBuilder.defaultB.read_timeout = none ∧
      ConnectorBuilder.defaultB.write_timeout = none ∧
      ConnectorBuilder.defaultB.connect_timeout = none ∧
      ConnectorBuilder.defaultB.proxy = none ∧
      (env.buildFails = none → Connector.defaultConn env = BuildOrAbort.ok connA) ∧
      (∀ e, env.buildFails = some e →
        Connector.defaultConn env = BuildOrAbort.abort "new default connector failure") := by
  refine ⟨rfl, rfl, rfl, rfl, rfl, rfl, rfl, ?_, ?_⟩
  · intro h
    simp [Connector.defaultConn, ConnectorBuilder.build, h, ConnectorBuilder.defaultB, connA]
  · intro e h
    simp [Connector.defaultConn, ConnectorBuilder.build, h]

/-- C9 witness: with a succeeding TLS build the default connector is the
permissive `connA`; with a failing build it aborts with the `expect`
message. -/
theorem default_connector_permissive_witness :
    Connector.defaultConn ⟨none⟩ = BuildOrAbort.ok connA ∧
      Connector.defaultConn ⟨some (new_io_error IOErrorKind.Other "trust store")⟩ =
        BuildOrAbort.abort "new default connector failure" :=
  ⟨(default_connector_permissive ⟨none⟩).2.2.2.2.2.2.2.1 rfl,
    (default_connector_permissive ⟨some (new_io_error IOErrorKind.Other "trust store")⟩).2.2.2.2.2.2.2.2
      (new_io_error IOErrorKind.Other "trust store") rfl⟩

/-- C10: `build` reads the builder without modifying it (it is a pure
function of the builder value), every built connector carries exact
copies of the builder's `connect_timeout`, `nodelay`, `read_timeout`,
`write_timeout` and `proxy` fields, and repeated builds from the same
builder yield identical connectors. -/
theorem build_frame_copies_fields (b : ConnectorBuilder) (env : TlsEnv) (c : Connector)
    (h : b.build env = Except.ok c) :
    c.connect_timeout = b.connect_timeout ∧ c.nodelay = b.nodelay ∧
      c.read_timeout = b.read_timeout ∧ c.write_timeout = b.write_timeout ∧
      c.proxy = b.proxy ∧
      (∀ c' : Connector, b.build env = Except.ok c' → c' = c) := by
  cases henv : env.buildFails with
  | some e => simp [ConnectorBuilder.build, henv] at h
  | none =>
    simp [ConnectorBuilder.build, henv] at h
    subst h
    refine ⟨rfl, rfl, rfl, rfl, rfl, ?_⟩
    intro c' h'
    simp [ConnectorBuilder.build, henv] at h'
    exact h'.symm

/-- C10 witness: building twice from a fully-populated builder yields the
same connector, which copies all five configuration fields. -/
theorem build_frame_copies_fields_witness :
    bldB.build ⟨none⟩ = Except.ok connB ∧
      connB.connect_timeout = some 30 ∧ connB.nodelay = true ∧
      connB.read_timeout = some 10 ∧ connB.write_timeout = some 20 ∧
      connB.proxy = some ⟨3⟩ := by
  refine ⟨rfl, ?_⟩
  have h := build_frame_copies_fields bldB ⟨none⟩ connB rfl
  exact ⟨h.1, h.2.1, h.2.2.1, h.2.2.2.1, h.2.2.2.2.1⟩

/-- C3: `connect_with_addr` performs exactly the sequence: allocate a
stream/TCP socket for the address family; set no-delay only when
`nodelay` is true; set the read then the write timeout unconditionally
(a `none` value clears the timeout); connect bounded when
`connect_timeout` is `some` and blocking when `none`; on success return
`Socket::TCP` wrapping the connected stream carrying those options.  Any
step's failure is surfaced immediately as that error, and no syscall is
ever repeated (the op log has no duplicates — no internal retry). -/
theorem connect_with_addr_sequence (c : Connector) (addr : SocketAddr) (env : OsEnv) :
    (env = {} →
      c.connect_with_addr env addr =
        (Except.ok (Socket.TCP
            { domain := Domain.for_address addr, ty := SockType.STREAM,
              protocol := some Protocol.TCP, nodelay := c.nodelay,
              readTimeout := c.read_timeout, writeTimeout := c.write_timeout,
              connectedTo := some addr }),
          [Op.newSock (Domain.for_address addr) SockType.STREAM (some Protocol.TCP)] ++
            (if c.nodelay then [Op.setNodelay true] else []) ++
            [Op.setReadTimeout c.read_timeout, Op.setWriteTimeout c.write_timeout] ++
            [match c.connect_timeout with
              | none => Op.connect addr
              | some t => Op.connectTimeout addr t])) ∧
    (∀ e, env.newFails = some e →
      c.connect_with_addr env addr =
        (Except.error e,
          [Op.newSock (Domain.for_address addr) SockType.STREAM (some Protocol.TCP)])) ∧
    (∀ e, env.newFails = none → env.nodelayFails = some e → c.nodelay = true →
      (c.connect_with_addr env addr).1 = Except.error e) ∧
    (∀ e, env.newFails = none → (c.nodelay = true → env.nodelayFails = none) →
      env.readTimeoutFails = some e → (c.connect_with_addr env addr).1 = Except.error e) ∧
    (∀ e, env.newFails = none → (c.nodelay = true → env.nodelayFails = none) →
      env.readTimeoutFails = none → env.writeTimeoutFails = some e →
      (c.connect_with_addr env addr).1 = Except.error e) ∧
    (∀ e, env.newFails = none → (c.nodelay = true → env.nodelayFails = none) →
      env.readTimeoutFails = none → env.writeTimeoutFails = none → env.connectFails = some e →
      (c.connect_with_addr env addr).1 = Except.error e) ∧
    (c.connect_with_addr env addr).2.Nodup := by
  refine ⟨?_, ?_, ?_, ?_, ?_, ?_, ?_⟩
  · intro h
    subst h
    cases hn : c.nodelay <;> cases hct : c.connect_timeout <;>
      simp [Connector.connect_with_addr, connectAddrAfterNodelay, hn, hct]
  · intro e h
    simp [Connector.connect_with_addr, h]
  · intro e h1 h2 h3
    simp [Connector.connect_with_addr, h1, h2, h3]
  · intro e h1 h2 h3
    cases hn : c.nodelay
    · simp [Connector.connect_with_addr, connectAddrAfterNodelay, h1, h3, hn]
    · simp [Connector.connect_with_addr, connectAddrAfterNodelay, h1, h2 hn, h3, hn]
  · intro e h1 h2 h3 h4
    cases hn : c.nodelay
    · simp [Connector.connect_with_addr, connectAddrAfterNodelay, h1, h3, h4, hn]
    · simp [Connector.connect_with_addr, connectAddrAfterNodelay, h1, h2 hn, h3, h4, hn]
  · intro e h1 h2 h3 h4 h5
    cases hn : c.nodelay <;> cases hct : c.connect_timeout
    · simp [Connector.connect_with_addr, connectAddrAfterNodelay, h1, h3, h4, h5, hn, hct]
    · simp [Connector.connect_with_addr, connectAddrAfterNodelay, h1, h3, h4, h5, hn, hct]
    · simp [Connector.connect_with_addr, connectAddrAfterNodelay, h1, h2 hn, h3, h4, h5, hn, hct]
    · simp [Connector.connect_with_addr, connectAddrAfterNodelay, h1, h2 hn, h3, h4, h5, hn, hct]
  · cases hnew : env.newFails
    · cases hn : c.nodelay
      · cases hr : env.readTimeoutFails <;> cases hw : env.writeTimeoutFails <;>
          cases hct : c.connect_timeout <;> cases hcf : env.connectFails <;>
          simp [Connector.connect_with_addr, connectAddrAfterNodelay, hnew, hn, hr, hw, hct, hcf]
      · cases hnd : env.nodelayFails
        · cases hr : env.readTimeoutFails <;> cases hw : env.writeTimeoutFails <;>
            cases hct : c.connect_timeout <;> cases hcf : env.connectFails <;>
            simp [Connector.connect_with_addr, connectAddrAfterNodelay, hnew, hn, hnd, hr, hw,
              hct, hcf]
        · simp [Connector.connect_with_addr, connectAddrAfterNodelay, hnew, hn, hnd]
    · simp [Connector.connect_with_addr, hnew]

/-- C3 witness: a fully-populated connector against a v4 address with an
all-succeeding OS performs exactly the five syscalls in order and returns
the connected plain socket. -/
theorem connect_with_addr_sequence_witness :
    connB.connect_with_addr {} (SocketAddr.v4 1 80) =
      (Except.ok (Socket.TCP
          { domain := Domain.IPV4, ty := SockType.STREAM, protocol := some Protocol.TCP,
            nodelay := true, readTimeout := some 10, writeTimeout := some 20,
            connectedTo := some (SocketAddr.v4 1 80) }),
        [Op.newSock Domain.IPV4 SockType.STREAM (some Protocol.TCP), Op.setNodelay true,
          Op.setReadTimeout (some 10), Op.setWriteTimeout (some 20),
          Op.connectTimeout (SocketAddr.v4 1 80) 30]) := by
  have h := (connect_with_addr_sequence connB (SocketAddr.v4 1 80) {}).1 rfl
  exact h

/-- Helper: whenever `connect_with_addr` succeeds, the returned plain
socket is the fresh socket with the connector's options applied and the
address connected. -/
theorem connect_with_addr_ok_shape (c : Connector) (env : OsEnv) (addr : SocketAddr)
    (s : RawSocket) (h : (c.connect_with_addr env addr).1 = Except.ok (Socket.TCP s)) :
    s = { domain := Domain.for_address addr, ty := SockType.STREAM,
          protocol := some Protocol.TCP, nodelay := c.nodelay,
          readTimeout := c.read_timeout, writeTimeout := c.write_timeout,
          connectedTo := some addr } := by
  cases hnew : env.newFails <;> cases hnd : env.nodelayFails <;>
    cases hr : env.readTimeoutFails <;> cases hw : env.writeTimeoutFails <;>
    cases hct : c.connect_timeout <;> cases hcf : env.connectFails <;>
    cases hn : c.nodelay <;>
    simp_all [Connector.connect_with_addr, connectAddrAfterNodelay]

/-- C5: with `nodelay = true`, a failure to set no-delay is surfaced as
that error immediately (never swallowed) and any successfully connected
socket has no-delay enabled; with `nodelay = false`, the no-delay syscall
is never performed and a connected socket keeps the OS default (off). -/
theorem connect_with_addr_nodelay_policy (c : Connector) (env : OsEnv) (addr : SocketAddr) :
    (c.nodelay = true → env.newFails = none → ∀ e, env.nodelayFails = some e →
      c.connect_with_addr env addr =
        (Except.error e,
          [Op.newSock (Domain.for_address addr) SockType.STREAM (some Protocol.TCP),
            Op.setNodelay true])) ∧
    (c.nodelay = true → ∀ s : RawSocket,
      (c.connect_with_addr env addr).1 = Except.ok (Socket.TCP s) → s.nodelay = true) ∧
    (c.nodelay = false →
      (∀ v, Op.setNodelay v ∉ (c.connect_with_addr env addr).2) ∧
        ∀ s : RawSocket,
          (c.connect_with_addr env addr).1 = Except.ok (Socket.TCP s) → s.nodelay = false) := by
  refine ⟨?_, ?_, ?_⟩
  · intro hn h1 e h2
    simp [Connector.connect_with_addr, h1, hn, h2]
  · intro hn s hs
    have h := connect_with_addr_ok_shape c env addr s hs
    simp [h, hn]
  · intro hn
    constructor
    · intro v
      cases hnew : env.newFails <;> cases hr : env.readTimeoutFails <;>
        cases hw : env.writeTimeoutFails <;> cases hct : c.connect_timeout <;>
        cases hcf : env.connectFails <;>
        simp [Connector.connect_with_addr, connectAddrAfterNodelay, hnew, hn, hr, hw, hct, hcf]
    · intro s hs
      have h := connect_with_addr_ok_shape c env addr s hs
      simp [h, hn]

/-- C5 witness: with `nodelay = true` a failing no-delay syscall yields
exactly that error after the two syscalls, and the all-success connect
yields a socket with no-delay on; with `nodelay = false` (default
connector) the success trace contains no no-delay syscall and the socket
keeps no-delay off. -/
theorem connect_with_addr_nodelay_policy_witness :
    connB.connect_with_addr { nodelayFails := some (new_io_error IOErrorKind.Other "nodelay") }
        (SocketAddr.v4 1 80) =
      (Except.error (new_io_error IOErrorKind.Other "nodelay"),
        [Op.newSock Domain.IPV4 SockType.STREAM (some Protocol.TCP), Op.setNodelay true]) ∧
      ((Op.setNodelay true ∉ (connA.connect_with_addr {} (SocketAddr.v4 1 80)).2) ∧
        (Op.setNodelay false ∉ (connA.connect_with_addr {} (SocketAddr.v4 1 80)).2)) := by
  constructor
  · exact (connect_with_addr_nodelay_policy connB
      { nodelayFails := some (new_io_error IOErrorKind.Other "nodelay") }
      (SocketAddr.v4 1 80)).1 rfl rfl (new_io_error IOErrorKind.Other "nodelay") rfl
  · have h := (connect_with_addr_nodelay_policy connA {} (SocketAddr.v4 1 80)).2.2 rfl
    exact ⟨h.1 true, h.1 false⟩

/-- Helper: if the behaviour would-blocks at every step from `j` up to
`j + N` (exclusive), the loop resumes the retained state each time and
after `N` resumptions stands at step `j + N` having consumed `N` fuel and
counted `N` more handshake invocations. -/
theorem hsLoop_wb_shift (b : Nat → HsRes Nat) :
    ∀ N fuel j steps : Nat, N ≤ fuel →
      (∀ k, j ≤ k → k < j + N → b k = HsRes.wouldBlock k) →
      hsLoop (engineOfBehavior b) fuel (b j) steps =
        hsLoop (engineOfBehavior b) (fuel - N) (b (j + N)) (steps + N) := by
  intro N
  induction N with
  | zero => intro fuel j steps _ _; simp
  | succ n ih =>
    intro fuel j steps hf hwb
    have hbj : b j = HsRes.wouldBlock j := hwb j le_rfl (by omega)
    cases fuel with
    | zero => exact absurd hf (by omega)
    | succ f =>
      have h1 : hsLoop (engineOfBehavior b) (f + 1) (b j) steps =
          hsLoop (engineOfBehavior b) f (b (j + 1)) (steps + 1) := by
        rw [hbj]; rfl
      have h2 := ih f (j + 1) (steps + 1) (by omega)
        (fun k hk1 hk2 => hwb k (by omega) (by omega))
      rw [h1, h2]
      have e1 : j + 1 + n = j + (n + 1) := by omega
      have e2 : steps + 1 + n = steps + (n + 1) := by omega
      have e3 : f - n = f + 1 - (n + 1) := by omega
      rw [e1, e2, e3]

/-- C1: on a plain (TCP) socket, the handshake loop resumes the retained
partial state on every would-block with no iteration cap: if the engine
would-blocks at each of the first `N` steps, then (for any fuel ≥ `N`,
`N` unbounded) a success at step `N` makes the upgrade return the stream
wrapped as the Secure variant after exactly `N + 1` handshake steps, and
any non-would-block failure at step `N` is returned immediately as that
error after exactly those `N + 1` steps, with no further iterations. -/
theorem upgrade_to_tls_wouldblock_loop (c : Connector) (b : Nat → HsRes Nat) (domain : String)
    (s : RawSocket) (N fuel : Nat) (hf : N ≤ fuel)
    (hwb : ∀ k, k < N → b k = HsRes.wouldBlock k) :
    (∀ t, b N = HsRes.ok t →
      c.upgrade_to_tls (engineOfBehavior b) fuel (Socket.TCP s) domain =
        some (Except.ok (Socket.TLS t), N + 1)) ∧
    (∀ e, b N = HsRes.failed e →
      c.upgrade_to_tls (engineOfBehavior b) fuel (Socket.TCP s) domain =
        some (Except.error e, N + 1)) := by
  have hshift := hsLoop_wb_shift b N fuel 0 1 hf (fun k hk1 hk2 => hwb k (by omega))
  rw [Nat.zero_add] at hshift
  constructor
  · intro t ht
    have hloop : hsLoop (engineOfBehavior b) fuel (b 0) 1 = some (Except.ok t, N + 1) := by
      rw [hshift, ht]
      simp [hsLoop, Nat.add_comm]
    simp only [Connector.upgrade_to_tls]
    rw [show (engineOfBehavior b).start domain s = b 0 from rfl, hloop]
  · intro e he
    have hloop : hsLoop (engineOfBehavior b) fuel (b 0) 1 = some (Except.error e, N + 1) := by
      rw [hshift, he]
      simp [hsLoop, Nat.add_comm]
    simp only [Connector.upgrade_to_tls]
    rw [show (engineOfBehavior b).start domain s = b 0 from rfl, hloop]

/-- C1 witness: an engine that would-blocks exactly twice then succeeds
upgrades after exactly 3 handshake steps, wrapping the stream as Secure;
an engine that would-blocks twice then fails terminally returns that
error after exactly 3 steps. -/
theorem upgrade_to_tls_wouldblock_loop_witness :
    connA.upgrade_to_tls
        (engineOfBehavior fun k => if k < 2 then HsRes.wouldBlock k else HsRes.ok ⟨7⟩) 5
        (Socket.TCP sockA) "example.com" = some (Except.ok (Socket.TLS ⟨7⟩), 3) ∧
      connA.upgrade_to_tls
          (engineOfBehavior fun k =>
            if k < 2 then HsRes.wouldBlock k
            else HsRes.failed (new_io_error IOErrorKind.Other "broken pipe")) 5
          (Socket.TCP sockA) "example.com" =
        some (Except.error (new_io_error IOErrorKind.Other "broken pipe"), 3) := by
  constructor
  · exact (upgrade_to_tls_wouldblock_loop connA
      (fun k => if k < 2 then HsRes.wouldBlock k else HsRes.ok ⟨7⟩) "example.com" sockA 2 5
      (by omega) (by decide)).1 ⟨7⟩ (by decide)
  · exact (upgrade_to_tls_wouldblock_loop connA
      (fun k => if k < 2 then HsRes.wouldBlock k
        else HsRes.failed (new_io_error IOErrorKind.Other "broken pipe")) "example.com" sockA 2 5
      (by omega) (by decide)).2 (new_io_error IOErrorKind.Other "broken pipe") (by decide)

end Slinger
